import Mathlib

/-!
Verification development for the financial-spreadsheet validation and
extraction engine (src/validator.py, src/script.py, src/main.py).

The code is shallowly embedded: a loaded pandas DataFrame becomes a
`Grid` (list of rows of `CellValue`), the mutable `ExcelValidator`
becomes a pure function producing a `VResult`, and Python exceptions
(pandas `IndexError` from positional `iloc` access) become `Except`
values.  Python `int()` / `float()` coercions of cell values are
modelled by total functions returning `Option`; the string-to-float
model covers plain decimal literals (the only forms the source data
uses; Python additionally accepts exponents and inf/nan spellings).
Diagnostic `logger` calls are modelled only where a claim depends on
them (the extractor); elsewhere they have no observable effect.
-/

/-- A spreadsheet cell: blank (pandas NaN / Python None), a number, or text. -/
inductive CellValue where
  | blank : CellValue
  | num (q : Rat) : CellValue
  | str (s : String) : CellValue
deriving DecidableEq

abbrev Row := List CellValue
abbrev Grid := List Row

/-- pandas `pd.isna` on a cell value. -/
def pdIsna : CellValue → Bool
  | .blank => true
  | _ => false

/-- Python `str(x)` of a cell value.  For non-integral numbers the exact
rendering differs from Python float repr; it is only ever used inside
diagnostic message strings. -/
def pyStr : CellValue → String
  | .blank => "nan"
  | .num q => if q.den = 1 then toString q.num else toString q
  | .str s => s

/-- Python `cell == label` for a string literal: only equal text compares true
(NaN or numbers compared to a string give False). -/
def cellEqStr (c : CellValue) (label : String) : Bool :=
  match c with
  | .str s => s == label
  | _ => false

/-- `pat` occurs at the head of the character list. -/
def charsLead : List Char → List Char → Bool
  | [], _ => true
  | _ :: _, [] => false
  | p :: ps, c :: cs => p == c && charsLead ps cs

/-- `pat` occurs somewhere in the character list. -/
def charsWithin (pat : List Char) : List Char → Bool
  | [] => pat.isEmpty
  | c :: cs => charsLead pat (c :: cs) || charsWithin pat cs

/-- Python `pat in s` substring test. -/
def strContains (s pat : String) : Bool :=
  charsWithin pat.toList s.toList

/-- Python `int()` truncation of a float toward zero (numerator and
denominator division; both division conventions agree on non-negatives). -/
def ratTrunc (q : Rat) : Int :=
  if 0 ≤ q.num then q.num / (q.den : Int) else -((-q.num) / (q.den : Int))

/-- Whitespace for Python `str.strip()`. -/
def isWs (c : Char) : Bool := c == ' ' || c == '\t' || c == '\n' || c == '\r'

/-- Drop leading whitespace characters. -/
def dropWsLead : List Char → List Char
  | [] => []
  | c :: cs => if isWs c then dropWsLead cs else c :: cs

/-- Python `str.strip()` on a character list. -/
def trimChars (l : List Char) : List Char :=
  ((dropWsLead (dropWsLead l).reverse)).reverse

/-- Accumulate a decimal digit string. -/
def digitsToNatGo : List Char → Nat → Option Nat
  | [], acc => some acc
  | c :: cs, acc =>
    if c.isDigit then digitsToNatGo cs (acc * 10 + (c.toNat - 48)) else none

/-- A non-empty all-digit character list as a natural number. -/
def digitsToNat (l : List Char) : Option Nat :=
  if l.isEmpty then none else digitsToNatGo l 0

/-- Python `int(s)` on a string: strip whitespace, optional sign, decimal
digits; `none` models `ValueError`. -/
def pyParseInt (s : String) : Option Int :=
  match trimChars s.toList with
  | '-' :: rest => (digitsToNat rest).map (fun n => -(n : Int))
  | '+' :: rest => (digitsToNat rest).map (fun n => (n : Int))
  | l => (digitsToNat l).map (fun n => (n : Int))

/-- Python `int(cell)` as used by the validator and the metadata extractor:
numeric cells truncate, text cells parse as integer strings, anything else
(blank) raises — modelled as `none` (every call site catches or pre-filters). -/
def pyToIntCell : CellValue → Option Int
  | .num q => some (ratTrunc q)
  | .str s => pyParseInt s
  | .blank => none

/-- Split a character list at every dot. -/
def splitDotGo : List Char → List Char → List (List Char)
  | [], cur => [cur.reverse]
  | c :: cs, cur =>
    if c == '.' then cur.reverse :: splitDotGo cs [] else splitDotGo cs (c :: cur)

/-- Python `float(s)` for a plain decimal literal (optional sign, digits,
optional fractional part).  `none` models `ValueError`.  (Python additionally
accepts exponents and inf/nan spellings, which the source data never uses.)
The value is built with `mkRat` so that concrete runs evaluate in the kernel. -/
def parseFloat? (s : String) : Option Rat :=
  let l := trimChars s.toList
  let neg : Bool := match l with | '-' :: _ => true | _ => false
  let u : List Char := match l with
    | '-' :: rest => rest
    | '+' :: rest => rest
    | _ => l
  let signed (v : Rat) : Rat := if neg then Rat.neg v else v
  match splitDotGo u [] with
  | [i] => (digitsToNat i).map (fun n => signed (mkRat n 1))
  | [i, f] =>
    if i.isEmpty && f.isEmpty then none
    else
      let iv : Option Nat := if i.isEmpty then some 0 else digitsToNat i
      let fv : Option Nat := if f.isEmpty then some 0 else digitsToNat f
      match iv, fv with
      | some a, some b =>
        some (signed (mkRat ((a : Int) * (((10 : Nat) ^ f.length : Nat) : Int) + (b : Int))
          ((10 : Nat) ^ f.length)))
      | _, _ => none
  | _ => none

/-- Python `s.lower()` (character-wise, built structurally so it evaluates). -/
def lowerStr (s : String) : String := String.mk (s.toList.map Char.toLower)

/-- Python `float(cell)`: numbers pass through, text parses, blank is
pre-filtered by `pd.isna` at every call site. -/
def pyFloatCell : CellValue → Option Rat
  | .num q => some q
  | .str s => parseFloat? s
  | .blank => none

/-- Python truthiness of an optional integer config entry
(`if not x:` — absent, or zero, is falsy). -/
def truthyInt : Option Int → Option Int
  | none => none
  | some n => if n = 0 then none else some n

/-- Python truthiness of an optional string config entry
(absent, or empty string, is falsy). -/
def truthyStr : Option String → Option String
  | none => none
  | some s => if s = "" then none else some s

/-- The pandas message for an out-of-bounds positional `iloc` access. -/
def idxErrMsg : String := "IndexError: single positional indexer is out-of-bounds"

/-- pandas `df.iloc[i]` row access: negative indices count from the end,
out-of-range raises `IndexError`. -/
def ilocRow (g : Grid) (i : Int) : Except String Row :=
  let j : Int := if i < 0 then (g.length : Int) + i else i
  if 0 ≤ j ∧ j < (g.length : Int) then .ok (g.getD j.toNat []) else .error idxErrMsg

/-- pandas `row.iloc[i]` (and positional `row[i]`) cell access. -/
def ilocCell (r : Row) (i : Int) : Except String CellValue :=
  let j : Int := if i < 0 then (r.length : Int) + i else i
  if 0 ≤ j ∧ j < (r.length : Int) then .ok (r.getD j.toNat .blank) else .error idxErrMsg

/-- Ascending stable insertion used to model Python `list.sort()` on integers
(structural recursion, unlike library merge sort, so concrete runs evaluate
inside the kernel). -/
def insertAsc (x : Int) : List Int → List Int
  | [] => [x]
  | y :: ys => if x ≤ y then x :: y :: ys else y :: insertAsc x ys

/-- Python `years.sort()`: ascending sort of an integer list. -/
def sortInts (l : List Int) : List Int := l.foldr insertAsc []

/-! ## Validator (src/validator.py, class ExcelValidator) -/

/-- One entry of the `row_validations` config list (validator.py 214-221):
both fields come from `.get` and so may be absent. -/
structure RowValidation where
  row : Option Int
  expected_name : Option String
deriving DecidableEq

/-- The validation configuration consumed by `ExcelValidator` (the relevant
`config.get` keys; `sheet_name` only affects loading, which is upstream of the
embedded grid). -/
structure VConfig where
  expected_company_name : Option String
  validate_audit_type : Bool
  type_of_accounts_row : Option Int
  year_row : Option Int
  row_validations : List RowValidation
  min_required_years : Int
deriving DecidableEq

/-- `validation_results` of `ExcelValidator`. -/
structure VResult where
  is_valid : Bool
  errors : List String
  warnings : List String
deriving DecidableEq

/-- `ExcelValidator.__init__`: initial result state (validator.py 26-30). -/
def initResult : VResult := ⟨true, [], []⟩

/-- `_add_error` (validator.py 58-62). -/
def addError (r : VResult) (m : String) : VResult :=
  { r with errors := r.errors ++ [m], is_valid := false }

/-- `_add_warning` (validator.py 64-67). -/
def addWarning (r : VResult) (m : String) : VResult :=
  { r with warnings := r.warnings ++ [m] }

/-- A single `_add_error` / `_add_warning` call made by a check.  A check
reads only the grid and the config, so it is embedded as the list of add
calls it performs, applied in order. -/
inductive VItem where
  | err (msg : String) : VItem
  | warn (msg : String) : VItem
deriving DecidableEq

def applyItem (r : VResult) : VItem → VResult
  | .err m => addError r m
  | .warn m => addWarning r m

def applyItems (r : VResult) (l : List VItem) : VResult := l.foldl applyItem r

/-- `_validate_sheet_not_empty` (validator.py 100-108): empty frame is an
error and returns; otherwise an all-null frame is an error. -/
def sheetItems (g : Grid) : List VItem :=
  if g.isEmpty || g.all (fun r => r.isEmpty) then [.err "Excel sheet is empty"]
  else if g.all (fun r => r.all (fun c => pdIsna c)) then
    [.err "Excel sheet contains no data (all values are null)"]
  else []

def labelCompanyName : String := "Name of the Company"

/-- The `iterrows` scan of `_validate_company_name` (validator.py 118-121):
first row whose first cell equals the label; reading the first cell of a
zero-width row raises. -/
def findRowByLabel (label : String) : Grid → Except String (Option Row)
  | [] => .ok none
  | r :: rs =>
    match r with
    | [] => .error idxErrMsg
    | c :: _ => if cellEqStr c label then .ok (some r) else findRowByLabel label rs

/-- `_validate_company_name` (validator.py 110-134).  This check has no
try/except: the `df.iloc[company_row_idx, 1]` access can raise, which
propagates out of the whole validation run (hence the `Except`). -/
def companyItems (cfg : VConfig) (g : Grid) : Except String (List VItem) :=
  match truthyStr cfg.expected_company_name with
  | none => .ok [.warn "No expected company name specified in configuration"]
  | some expected =>
    match findRowByLabel labelCompanyName g with
    | .error e => .error e
    | .ok none => .ok [.err "Could not find Name of the Company row"]
    | .ok (some row) =>
      match ilocCell row 1 with
      | .error e => .error e
      | .ok cell =>
        if pdIsna cell then .ok [.err "Company name cell is empty"]
        else
          let actual := String.mk (trimChars (pyStr cell).toList)
          if actual ≠ expected then
            .ok [.err ("Company name mismatch. Expected: " ++ expected ++ ", Found: " ++ actual)]
          else .ok []

/-- `_validate_has_audited_values` (validator.py 136-163); its body is inside
try/except, so faults become an error item. -/
def auditItems (cfg : VConfig) (g : Grid) : List VItem :=
  match truthyInt cfg.type_of_accounts_row with
  | none => [.warn "No audit type row specified in configuration"]
  | some n =>
    match ilocRow g (n - 1) with
    | .error e => [.err ("Error validating audit types: " ++ e)]
    | .ok rowData =>
      match rowData with
      | [] => [.err ("Error validating audit types: " ++ idxErrMsg)]
      | c0 :: rest =>
        if !(strContains (pyStr c0) "Type of accounts") then
          [.err ("Row " ++ toString n ++ " does not contain audit type information")]
        else if rest.any (fun c => match c with
            | .str s => strContains (lowerStr s) "audit"
            | _ => false) then []
        else [.err "No Audited value found in audit type row"]

def unusualYearMsg (y : Int) : String :=
  "Unusual year value in year row: " ++ toString y

def nonNumericYearMsg (c : CellValue) : String :=
  "Non-numeric year value in year row: " ++ pyStr c

/-- One iteration of the year loop of `_validate_year_row`
(validator.py 182-202), acting on the accumulated (warnings, valid years). -/
def yearScanStep (acc : List VItem × List Int) (c : CellValue) : List VItem × List Int :=
  if pdIsna c then acc
  else
    match pyToIntCell c with
    | some y =>
      if 1900 ≤ y ∧ y ≤ 2100 then (acc.1, acc.2 ++ [y])
      else (acc.1 ++ [VItem.warn (unusualYearMsg y)], acc.2)
    | none => (acc.1 ++ [VItem.warn (nonNumericYearMsg c)], acc.2)

/-- The year loop of `_validate_year_row` over the cells after column 0. -/
def yearScan (cells : List CellValue) : List VItem × List Int :=
  cells.foldl yearScanStep ([], [])

/-- Body of `_validate_year_row` once the row index is fixed
(validator.py 172-210). -/
def yearRowItemsAt (g : Grid) (n : Int) : List VItem :=
  match ilocRow g (n - 1) with
  | .error e => [.err ("Error validating year row: " ++ e)]
  | .ok rowData =>
    match rowData with
    | [] => [.err ("Error validating year row: " ++ idxErrMsg)]
    | c0 :: rest =>
      let firstItem : List VItem :=
        if !(pdIsna c0) && !(strContains (lowerStr (pyStr c0)) "year") then
          [.warn ("Year row first cell is not empty or does not contain year: " ++ pyStr c0)]
        else []
      let scanned := yearScan rest
      firstItem ++ scanned.1 ++
        (if scanned.2.isEmpty then [VItem.err "No valid years found in the year row"] else [])

/-- `_validate_year_row` (validator.py 165-210). -/
def yearRowItems (cfg : VConfig) (g : Grid) : List VItem :=
  match truthyInt cfg.year_row with
  | none => [.warn "No year row specified in configuration"]
  | some n => yearRowItemsAt g n

/-- One `row_validations` entry of `_validate_row_names`
(validator.py 216-231): falsy row or name skips; the per-entry try/except
turns an access fault into an error for that entry. -/
def rowNameEntryItems (g : Grid) (v : RowValidation) : List VItem :=
  match truthyInt v.row, truthyStr v.expected_name with
  | some n, some expName =>
    (match ilocRow g (n - 1) with
     | .error e => [.err ("Error validating row " ++ toString n ++ " name: " ++ e)]
     | .ok rowData =>
       match rowData with
       | [] => [.err ("Error validating row " ++ toString n ++ " name: " ++ idxErrMsg)]
       | c0 :: _ =>
         if expName ≠ pyStr c0 then
           [.err ("Row name mismatch at row " ++ toString n ++ ". Expected: " ++ expName ++
             ", Found: " ++ pyStr c0)]
         else [])
  | _, _ => []

/-- `_validate_row_names` over a list of entries. -/
def rowNamesItemsL (g : Grid) (l : List RowValidation) : List VItem :=
  l.flatMap (rowNameEntryItems g)

/-- `_validate_row_names` (validator.py 212-231). -/
def rowNamesItems (cfg : VConfig) (g : Grid) : List VItem :=
  rowNamesItemsL g cfg.row_validations

/-- One `row_validations` entry of `_validate_row_values`
(validator.py 237-258): falsy row skips; faults become an error. -/
def rowValueEntryItems (g : Grid) (v : RowValidation) : List VItem :=
  match truthyInt v.row with
  | none => []
  | some n =>
    match ilocRow g (n - 1) with
    | .error e => [.err ("Error validating values in row " ++ toString n ++ ": " ++ e)]
    | .ok rowData =>
      if (rowData.drop 1).any (fun c => !(pdIsna c)) then []
      else
        match rowData with
        | [] => [.err ("Error validating values in row " ++ toString n ++ ": " ++ idxErrMsg)]
        | c0 :: _ =>
          [.err ("Row " ++ toString n ++ " (" ++ pyStr c0 ++ ") has no values across any year")]

/-- `_validate_row_values` over a list of entries. -/
def rowValuesItemsL (g : Grid) (l : List RowValidation) : List VItem :=
  l.flatMap (rowValueEntryItems g)

/-- `_validate_row_values` (validator.py 233-258). -/
def rowValuesItems (cfg : VConfig) (g : Grid) : List VItem :=
  rowValuesItemsL g cfg.row_validations

/-- The tolerant year collection of `_validate_column_continuity`
(validator.py 270-284): non-blank, parseable, in-range years in column order. -/
def contYears (cells : List CellValue) : List Int :=
  cells.foldl (fun acc c =>
    if pdIsna c then acc
    else
      match pyToIntCell c with
      | some y => if 1900 ≤ y ∧ y ≤ 2100 then acc ++ [y] else acc
      | none => acc) []

/-- Gap warnings over the sorted year list (validator.py 288-291). -/
def gapWarns : List Int → List VItem
  | a :: b :: rest =>
    (if b - a > 1 then
      [VItem.warn ("Gap in year sequence: " ++ toString a ++ " to " ++ toString b)]
    else []) ++ gapWarns (b :: rest)
  | _ => []

/-- `_validate_column_continuity` (validator.py 260-299); faults become a
warning. -/
def continuityItems (cfg : VConfig) (g : Grid) : List VItem :=
  match truthyInt cfg.year_row with
  | none => []
  | some n =>
    match ilocRow g (n - 1) with
    | .error e => [.warn ("Error checking year continuity: " ++ e)]
    | .ok rowData =>
      let years := contYears (rowData.drop 1)
      if years.isEmpty then []
      else
        let sorted := sortInts years
        gapWarns sorted ++
          (if 0 < cfg.min_required_years ∧ (sorted.length : Int) < cfg.min_required_years then
            [VItem.err ("Insufficient number of years. Found " ++ toString sorted.length ++
              ", required " ++ toString cfg.min_required_years)]
          else [])

/-- The battery of checks run by `validate_file` once the grid is loaded
(validator.py 43-56), in source order.  The company-name check is the only
one that can raise; a raise discards the partially-built result (the caller
sees the exception, not a `VResult`). -/
def validate_loaded (cfg : VConfig) (g : Grid) : Except String VResult :=
  match companyItems cfg g with
  | .error e => .error e
  | .ok i2 =>
    .ok (applyItems initResult
      (sheetItems g ++ i2 ++
        (if cfg.validate_audit_type then auditItems cfg g else []) ++
        yearRowItems cfg g ++ rowNamesItems cfg g ++ rowValuesItems cfg g ++
        continuityItems cfg g))

/-- Outcome of the file-loading preamble of `validate_file`
(validator.py 34-41): the three pre-grid failures, or a loaded grid. -/
inductive LoadOutcome where
  | fileMissing (p : String) : LoadOutcome
  | badExtension (ext : String) : LoadOutcome
  | loadError (msg : String) : LoadOutcome
  | loaded (g : Grid) : LoadOutcome

/-- `validate_file` (validator.py 32-56): each pre-grid failure adds a single
error and returns immediately; once loaded, the full battery runs. -/
def validate_file (cfg : VConfig) : LoadOutcome → Except String VResult
  | .fileMissing p => .ok (addError initResult ("File does not exist: " ++ p))
  | .badExtension ext =>
    .ok (addError initResult ("Invalid file format: " ++ ext ++ ". Expected .xls or .xlsx"))
  | .loadError m => .ok (addError initResult ("Error loading Excel file: " ++ m))
  | .loaded g => validate_loaded cfg g

/-! ## Extractor (src/script.py, class ExcelProcessor) -/

/-- Configuration keys consumed by `ExcelProcessor` (script.py): both row
indices are used only under `is not None` tests (so, unlike the validator,
a configured 0 is used as-is). -/
structure PConfig where
  year_row : Option Int
  account_type_row : Option Int
deriving DecidableEq

/-- One entry of the `attributes` config list (script.py 157-162): `id` and
`row` are accessed with mandatory keys, `name` with a defaulted `.get`. -/
structure AttrDesc where
  id : Int
  row : Int
  name : Option String
deriving DecidableEq

/-- One entry of `metadata['years']` (script.py 135). -/
structure YearInfo where
  year : Int
  acc_type : Option String
  year_id : Int
deriving DecidableEq

/-- The metadata dictionary built by `extract_metadata` (script.py 98-140):
`years` is keyed by column index in insertion (= column) order. -/
structure Metadata where
  company_name : Option CellValue
  years : List (Nat × YearInfo)
deriving DecidableEq

def labelTypeOfAccounts : String := "Type of accounts (Audited or Management)"

/-- `self.df.iloc[:, 0]`: the first column of the frame; raises on a frame
with no columns (in particular on an empty frame). -/
def colZero (g : Grid) : Except String (List CellValue) :=
  if g.isEmpty then .error idxErrMsg
  else if g.any (fun r => r.isEmpty) then .error idxErrMsg
  else .ok (g.map (fun r => r.headD .blank))

/-- `self.df.loc[self.df.iloc[:, 0] == label]`: the rows whose first cell
equals the label (script.py 103, 116). -/
def matchLabelRows (g : Grid) (label : String) : List Row :=
  g.filter (fun r => cellEqStr (r.headD .blank) label)

/-- The years-row fetch of `extract_metadata` (script.py 108-109): the
configured index is used directly (`self.df.iloc[year_row_index]`), with no
1-based-to-0-based conversion. -/
def metaYearRowFetch (g : Grid) (o : Option Int) : Except String (Option Row) :=
  match o with
  | none => .ok none
  | some n =>
    match ilocRow g n with
    | .ok r => .ok (some r)
    | .error e => .error e

/-- Account-type classification for one year column (script.py 128-133):
`None` when there is no account-type row or the cell is out of range/blank;
otherwise the case-sensitive substring test `"Audit" in str(acc_raw)`
decides audited vs managed. -/
def accOf (acctRow? : Option Row) (col : Nat) : Option String :=
  match acctRow? with
  | none => none
  | some r =>
    let acc_raw : CellValue := if col < r.length then r.getD col .blank else .blank
    if pdIsna acc_raw then none
    else if strContains (pyStr acc_raw) "Audit" then some "audited" else some "managed"

/-- One iteration of the years loop (script.py 122-137): blank cells and
unparseable years are skipped (the `ValueError`/`TypeError` handler only
logs), otherwise the column yields a `YearInfo` with `year_id = col - 1`. -/
def metaYearEntry (acctRow? : Option Row) (yr : Row) (col : Nat) : Option (Nat × YearInfo) :=
  if pdIsna (yr.getD col .blank) then none
  else
    match pyToIntCell (yr.getD col .blank) with
    | some y => some (col, ⟨y, accOf acctRow? col, (col : Int) - 1⟩)
    | none => none

/-- The years mapping of `extract_metadata` (script.py 119-137): columns 1
through `min(11, len(year_row)) - 1` (0-based) of the years row. -/
def metaYears (yr : Row) (acctRow? : Option Row) : List (Nat × YearInfo) :=
  (List.range' 1 (min 11 yr.length - 1)).filterMap (metaYearEntry acctRow? yr)

/-- The years mapping, absent a years row. -/
def metaYearsOfOpt : Option Row → Option Row → List (Nat × YearInfo)
  | none, _ => []
  | some yr, acctRow? => metaYears yr acctRow?

/-- `extract_metadata` (script.py 98-140).  Nothing in it except the years
loop is guarded, so company lookup (`.iloc[0, 2]`), the years-row fetch and a
configured account-row fetch can all raise. -/
def extract_metadata (cfg : PConfig) (g : Grid) : Except String Metadata :=
  match colZero g with
  | .error e => .error e
  | .ok _ =>
    let companyStep : Except String (Option CellValue) :=
      match matchLabelRows g labelCompanyName with
      | [] => .ok none
      | r :: _ =>
        match ilocCell r 2 with
        | .ok c => .ok (some c)
        | .error e => .error e
    match companyStep with
    | .error e => .error e
    | .ok company =>
      match metaYearRowFetch g cfg.year_row with
      | .error e => .error e
      | .ok yearRow? =>
        let acctStep : Except String (Option Row) :=
          match cfg.account_type_row with
          | some n =>
            match ilocRow g n with
            | .ok r => .ok (some r)
            | .error e => .error e
          | none => .ok (matchLabelRows g labelTypeOfAccounts).head?
        match acctStep with
        | .error e => .error e
        | .ok acctRow? => .ok ⟨company, metaYearsOfOpt yearRow? acctRow?⟩

/-- The per-attribute row fetch of `extract_financial_data`
(script.py 159, 166): `row_number = attribute['row'] - 2`. -/
def attRowFetch (g : Grid) (rowNum : Int) : Except String Row :=
  ilocRow g (rowNum - 2)

/-- `logger.error` / `logger.warning` events of the extractor that a claim
observes (`logger.info` calls are not modelled). -/
inductive LogEvt where
  | logError (msg : String) : LogEvt
  | logWarning (msg : String) : LogEvt
deriving DecidableEq

/-- A tuple appended to `data_rows` (script.py 179-188), in source field
order. -/
structure DataRecord where
  acc_type : Option String
  application_id : Int
  att_id : Int
  att_name : String
  att_value : Rat
  customer_id : Int
  year : Int
  year_id : Int
deriving DecidableEq

/-- `attribute.get('name', f"Attribute_{att_id}")` (script.py 162). -/
def attrName (att : AttrDesc) : String :=
  att.name.getD ("Attribute_" ++ toString att.id)

/-- One (attribute, year-column) iteration (script.py 169-192): positional
cell read, blank skip, float coercion, record emission; the inner try/except
turns any fault into a warning for that pair. -/
def perYearStep (application_id customer_id att_id : Int) (att_name : String)
    (attribute_row : Row) (acc : List LogEvt × List DataRecord) (p : Nat × YearInfo) :
    List LogEvt × List DataRecord :=
  match ilocCell attribute_row (p.1 : Int) with
  | .error e =>
    (acc.1 ++ [LogEvt.logWarning ("Error extracting value for attribute " ++ att_name ++
      ", year " ++ toString p.2.year ++ ": " ++ e)], acc.2)
  | .ok value =>
    if pdIsna value then acc
    else
      match pyFloatCell value with
      | none =>
        (acc.1 ++ [LogEvt.logWarning ("Error extracting value for attribute " ++ att_name ++
          ", year " ++ toString p.2.year ++ ": could not convert string to float")], acc.2)
      | some fv =>
        (acc.1, acc.2 ++ [⟨p.2.acc_type, application_id, att_id, att_name, fv,
          customer_id, p.2.year, p.2.year_id⟩])

/-- One attribute iteration (script.py 157-195): the outer try/except turns a
row-fetch fault into a warning for that attribute alone. -/
def perAttrStep (g : Grid) (years : List (Nat × YearInfo)) (customer_id application_id : Int)
    (acc : List LogEvt × List DataRecord) (att : AttrDesc) : List LogEvt × List DataRecord :=
  let att_name := attrName att
  match attRowFetch g att.row with
  | .error e =>
    (acc.1 ++ [LogEvt.logWarning ("Error processing attribute " ++ att_name ++ " at row " ++
      toString (att.row - 2) ++ ": " ++ e)], acc.2)
  | .ok attribute_row =>
    years.foldl (perYearStep application_id customer_id att.id att_name attribute_row) acc

/-- `extract_financial_data` (script.py 142-198): with no loaded frame it
logs an error and returns `[]`; otherwise `extract_metadata` runs unguarded
(its faults propagate) and each attribute is processed. -/
def extract_financial_data (cfg : PConfig) (atts : List AttrDesc) (df : Option Grid)
    (customer_id application_id : Int) : Except String (List LogEvt × List DataRecord) :=
  match df with
  | none => .ok ([.logError "Excel file not loaded"], [])
  | some g =>
    match extract_metadata cfg g with
    | .error e => .error e
    | .ok md => .ok (atts.foldl (perAttrStep g md.years customer_id application_id) ([], []))

/-! ## Orchestrator (src/main.py process_excel → src/script.py
process_excel_for_insertion), from the point where the grid is loaded; the
database insert is an external collaborator assumed to succeed. -/

/-- Observable outcome of one pipeline pass. -/
inductive Outcome where
  | rejected (r : VResult) : Outcome
  | accepted (records : List DataRecord) : Outcome
  | noData : Outcome
deriving DecidableEq

/-- main.py 42-66 plus script.py 248-269: validate; on `is_valid = false`
reject with the result; otherwise extract (the same file is re-loaded, so the
same grid) and fail distinctly on an empty record list. -/
def runPipeline (vcfg : VConfig) (icfg : PConfig) (atts : List AttrDesc) (g : Grid)
    (customer_id application_id : Int) : Except String Outcome :=
  match validate_loaded vcfg g with
  | .error e => .error e
  | .ok r =>
    if r.is_valid = false then .ok (.rejected r)
    else
      match extract_financial_data icfg atts (some g) customer_id application_id with
      | .error e => .error e
      | .ok (_, rows) => if rows.isEmpty then .ok .noData else .ok (.accepted rows)


/-! ## Decidability of result equality (used to evaluate concrete runs) -/

instance instDecEqExcept {e a : Type} [DecidableEq e] [DecidableEq a] : DecidableEq (Except e a)
  | .error x, .error y =>
    if h : x = y then isTrue (by subst h; rfl)
    else isFalse (fun hc => h (Except.error.inj hc))
  | .error _, .ok _ => isFalse (fun hc => Except.noConfusion hc)
  | .ok _, .error _ => isFalse (fun hc => Except.noConfusion hc)
  | .ok x, .ok y =>
    if h : x = y then isTrue (by subst h; rfl)
    else isFalse (fun hc => h (Except.ok.inj hc))

/-! ## Shared lemmas -/

/-- The result invariant maintained by `_add_error` / `_add_warning`. -/
def resultInv (r : VResult) : Prop := r.errors ≠ [] ↔ r.is_valid = false

lemma resultInv_initResult : resultInv initResult := by
  simp [resultInv, initResult]

lemma resultInv_applyItem (r : VResult) (it : VItem) (h : resultInv r) :
    resultInv (applyItem r it) := by
  cases it with
  | err m => simp [resultInv, applyItem, addError]
  | warn m => simpa [resultInv, applyItem, addWarning] using h

lemma resultInv_applyItems (l : List VItem) :
    ∀ r : VResult, resultInv r → resultInv (applyItems r l) := by
  induction l with
  | nil => intro r h; simpa [applyItems] using h
  | cons it l ih =>
    intro r h
    simpa [applyItems, List.foldl_cons] using ih (applyItem r it) (resultInv_applyItem r it h)

lemma resultInv_addError (r : VResult) (m : String) (h : resultInv r) :
    resultInv (addError r m) := resultInv_applyItem r (.err m) h

/-! ## Claims -/

/-- C1: for every validation run that produces a result, the errors list is
non-empty iff `is_valid` is false, and appending a warning never changes
`is_valid`. -/
theorem C1_validation_result_invariant (cfg : VConfig) (lo : LoadOutcome) (r : VResult)
    (h : validate_file cfg lo = .ok r) :
    (r.errors ≠ [] ↔ r.is_valid = false) ∧ ∀ m, (addWarning r m).is_valid = r.is_valid := by
  refine ⟨?_, fun m => rfl⟩
  cases lo with
  | fileMissing p =>
    injection h with h2
    rw [← h2]
    exact resultInv_addError initResult _ resultInv_initResult
  | badExtension ext =>
    injection h with h2
    rw [← h2]
    exact resultInv_addError initResult _ resultInv_initResult
  | loadError m =>
    injection h with h2
    rw [← h2]
    exact resultInv_addError initResult _ resultInv_initResult
  | loaded g =>
    have h2 : validate_loaded cfg g = Except.ok r := h
    unfold validate_loaded at h2
    cases hc : companyItems cfg g with
    | error e => rw [hc] at h2; exact absurd h2 (by simp)
    | ok i2 =>
      rw [hc] at h2
      injection h2 with h3
      rw [← h3]
      exact resultInv_applyItems _ initResult resultInv_initResult

/-- C1 witness: the invariant at a concrete run (a missing file). -/
theorem C1_validation_result_invariant_witness :
    ((addError initResult ("File does not exist: " ++ "f")).errors ≠ [] ↔
      (addError initResult ("File does not exist: " ++ "f")).is_valid = false) ∧
    (addWarning (addError initResult ("File does not exist: " ++ "f")) "w").is_valid =
      (addError initResult ("File does not exist: " ++ "f")).is_valid := by
  have h := C1_validation_result_invariant ⟨none, true, none, none, [], 0⟩
    (.fileMissing "f") (addError initResult ("File does not exist: " ++ "f")) rfl
  exact ⟨h.1, h.2 "w"⟩

/-- C6 counterexample: a fault inside the company-name check (reading the
cell next to the label on a one-column sheet) is NOT caught — the whole
validation run aborts with the pandas IndexError, so no result at all is
produced (the year-row check configured here never runs). -/
theorem C6_counterexample :
    validate_loaded ⟨some "Acme", true, none, some 1, [], 0⟩
      [[CellValue.str "Name of the Company"]] = .error idxErrMsg := by decide

/-- C6 (amended): faults are contained per check except in the company-name
check: a validation run aborts exactly when the company-name check raises
(the audit-type, year-row, row-name, row-value and continuity checks catch
their faults and record them as items; the sheet-emptiness check cannot
fault). -/
theorem C6_amended_fault_containment (cfg : VConfig) (g : Grid) (e : String) :
    validate_loaded cfg g = .error e ↔ companyItems cfg g = .error e := by
  unfold validate_loaded
  cases hc : companyItems cfg g with
  | error e2 => simp
  | ok i2 => simp

/-- C7 counterexample: on an empty grid the validator does NOT return
immediately after the empty-sheet error — the company-name, audit-type and
year-row checks still run and contribute their findings. -/
theorem C7_counterexample :
    validate_loaded ⟨some "X", true, none, none, [], 0⟩ [] =
      .ok ⟨false,
        ["Excel sheet is empty", "Could not find Name of the Company row"],
        ["No audit type row specified in configuration",
         "No year row specified in configuration"]⟩ := by decide

/-- C7 (amended): checks run in a fixed order; only the pre-grid failures
(missing file, bad extension, load error) short-circuit, each yielding a
single structural error; once the grid is loaded — even an empty one —
every check runs and contributes its findings in source order, provided the
unguarded company-name check does not raise; a recorded error never skips a
later check. -/
theorem C7_amended_check_sequencing (cfg : VConfig) (g : Grid) (p ext m : String)
    (i2 : List VItem) (h : companyItems cfg g = .ok i2) :
    validate_file cfg (.fileMissing p) =
      .ok (addError initResult ("File does not exist: " ++ p)) ∧
    validate_file cfg (.badExtension ext) =
      .ok (addError initResult ("Invalid file format: " ++ ext ++ ". Expected .xls or .xlsx")) ∧
    validate_file cfg (.loadError m) =
      .ok (addError initResult ("Error loading Excel file: " ++ m)) ∧
    validate_file cfg (.loaded g) = .ok (applyItems initResult
      (sheetItems g ++ i2 ++
        (if cfg.validate_audit_type then auditItems cfg g else []) ++
        yearRowItems cfg g ++ rowNamesItems cfg g ++ rowValuesItems cfg g ++
        continuityItems cfg g)) := by
  refine ⟨rfl, rfl, rfl, ?_⟩
  show validate_loaded cfg g = _
  unfold validate_loaded
  rw [h]

/-- C7 witness: the sequencing facts at a concrete configuration and grid. -/
theorem C7_amended_check_sequencing_witness :
    validate_file ⟨none, true, none, none, [], 0⟩ (.fileMissing "f") =
      .ok (addError initResult ("File does not exist: " ++ "f")) ∧
    validate_file ⟨none, true, none, none, [], 0⟩ (.badExtension ".txt") =
      .ok (addError initResult ("Invalid file format: " ++ ".txt" ++ ". Expected .xls or .xlsx")) ∧
    validate_file ⟨none, true, none, none, [], 0⟩ (.loadError "boom") =
      .ok (addError initResult ("Error loading Excel file: " ++ "boom")) ∧
    validate_file ⟨none, true, none, none, [], 0⟩ (.loaded []) = .ok (applyItems initResult
      (sheetItems [] ++ [VItem.warn "No expected company name specified in configuration"] ++
        (if (⟨none, true, none, none, [], 0⟩ : VConfig).validate_audit_type then
          auditItems ⟨none, true, none, none, [], 0⟩ [] else []) ++
        yearRowItems ⟨none, true, none, none, [], 0⟩ [] ++
        rowNamesItems ⟨none, true, none, none, [], 0⟩ [] ++
        rowValuesItems ⟨none, true, none, none, [], 0⟩ [] ++
        continuityItems ⟨none, true, none, none, [], 0⟩ [])) :=
  C7_amended_check_sequencing ⟨none, true, none, none, [], 0⟩ [] "f" ".txt" "boom"
    [VItem.warn "No expected company name specified in configuration"] rfl

/-- Grid used to exhibit the three different row-index conventions: row 0
holds no parseable year, row 1 holds 2021, row 2 holds 5 (in range for the
attribute value read). -/
def gridC2 : Grid :=
  [[CellValue.str "x", CellValue.str "abc"],
   [CellValue.blank, CellValue.num (mkRat 2021 1)],
   [CellValue.str "L", CellValue.num (mkRat 5 1)]]

/-- C2 counterexample: the conversion is NOT uniform.  With the same
configured index 1, the validator's year check reads grid row 0 (finding no
valid year: error), while the metadata extractor reads grid row 1 (finding
2021); and an attribute configured at row 3 is read from grid row 1
(3 − 2), not row 2 (3 − 1) — its extracted value is row 1's 2021, not
row 2's 5. -/
theorem C2_counterexample :
    yearRowItems ⟨none, true, none, some 1, [], 0⟩ gridC2 =
      [VItem.warn ("Year row first cell is not empty or does not contain year: " ++ "x"),
       VItem.warn (nonNumericYearMsg (CellValue.str "abc")),
       VItem.err "No valid years found in the year row"] ∧
    extract_metadata ⟨some 1, none⟩ gridC2 = .ok ⟨none, [(1, ⟨2021, none, 0⟩)]⟩ ∧
    extract_financial_data ⟨some 1, none⟩ [⟨1, 3, some "A"⟩] (some gridC2) 0 0 =
      .ok ([], [⟨none, 0, 1, "A", mkRat 2021 1, 0, 2021, 0⟩]) := by decide

/-- C2 (amended): the three components use three different conversions of a
configured row number N: the validator's checks read grid row N − 1, the
metadata extractor reads grid row N unchanged, and the attribute extractor
reads grid row N − 2 — each component's behaviour depends on the grid only
through the row at its own offset. -/
theorem C2_amended_row_offsets (N : Int) (g g2 : Grid)
    (hv : ilocRow g (N - 1) = ilocRow g2 (N - 1))
    (hm : ilocRow g N = ilocRow g2 N)
    (ha : ilocRow g (N - 2) = ilocRow g2 (N - 2)) :
    yearRowItemsAt g N = yearRowItemsAt g2 N ∧
    metaYearRowFetch g (some N) = metaYearRowFetch g2 (some N) ∧
    attRowFetch g N = attRowFetch g2 N := by
  refine ⟨?_, ?_, ?_⟩
  · unfold yearRowItemsAt; rw [hv]
  · simp only [metaYearRowFetch]; rw [hm]
  · unfold attRowFetch; rw [ha]

/-- C2 witness: two four-row grids agreeing on rows 0, 1, 2 (those read for
N = 2) but differing on row 3 give identical component reads. -/
theorem C2_amended_row_offsets_witness :
    yearRowItemsAt
        [[CellValue.num (mkRat 1 1)], [CellValue.num (mkRat 2 1)],
         [CellValue.num (mkRat 3 1)], [CellValue.num (mkRat 4 1)]] 2 =
      yearRowItemsAt
        [[CellValue.num (mkRat 1 1)], [CellValue.num (mkRat 2 1)],
         [CellValue.num (mkRat 3 1)], [CellValue.num (mkRat 9 1)]] 2 ∧
    metaYearRowFetch
        [[CellValue.num (mkRat 1 1)], [CellValue.num (mkRat 2 1)],
         [CellValue.num (mkRat 3 1)], [CellValue.num (mkRat 4 1)]] (some 2) =
      metaYearRowFetch
        [[CellValue.num (mkRat 1 1)], [CellValue.num (mkRat 2 1)],
         [CellValue.num (mkRat 3 1)], [CellValue.num (mkRat 9 1)]] (some 2) ∧
    attRowFetch
        [[CellValue.num (mkRat 1 1)], [CellValue.num (mkRat 2 1)],
         [CellValue.num (mkRat 3 1)], [CellValue.num (mkRat 4 1)]] 2 =
      attRowFetch
        [[CellValue.num (mkRat 1 1)], [CellValue.num (mkRat 2 1)],
         [CellValue.num (mkRat 3 1)], [CellValue.num (mkRat 9 1)]] 2 :=
  C2_amended_row_offsets 2 _ _ (by decide) (by decide) (by decide)

/-- The end-to-end example grid of the spec: company row, years row
[blank, 2021, 2022] and an attribute row [blank, 150.5, 200.0]. -/
def gridC3 : Grid :=
  [[CellValue.str "Name of the Company", CellValue.str "Acme Corp", CellValue.blank],
   [CellValue.blank, CellValue.num (mkRat 2021 1), CellValue.num (mkRat 2022 1)],
   [CellValue.blank, CellValue.num (mkRat 301 2), CellValue.num (mkRat 200 1)]]

/-- Validation config for the end-to-end example: the validator converts its
configured year row 2 to grid row 1. -/
def vcfgC3 : VConfig := ⟨some "Acme Corp", true, none, some 2, [], 0⟩

/-- Insertion config for the end-to-end example: the extractor uses its
configured year row 1 unchanged. -/
def pcfgC3 : PConfig := ⟨some 1, none⟩

/-- The attribute descriptor of the end-to-end example: row 4 is read from
grid row 2 (4 − 2). -/
def attsC3 : List AttrDesc := [⟨1, 4, some "Revenue"⟩]

/-- The records the pipeline actually produces on the example grid. -/
def recsC3 : List DataRecord :=
  [⟨none, 9, 1, "Revenue", mkRat 301 2, 7, 2021, 0⟩,
   ⟨none, 9, 1, "Revenue", mkRat 200 1, 7, 2022, 1⟩]

/-- C3 counterexample: the example run is accepted with the two expected
(year, value) pairs, but their `year_id` ordinals are 0 and 1 — not the
1 and 2 the claim asserts (`year_id = col − 1` with the first year at
0-based column 1). -/
theorem C3_counterexample :
    runPipeline vcfgC3 pcfgC3 attsC3 gridC3 7 9 = .ok (.accepted recsC3) ∧
    recsC3.map DataRecord.year_id = [0, 1] ∧
    ¬ recsC3.map DataRecord.year_id = [1, 2] := by decide

/-- C3 (amended): the end-to-end example run is accepted and produces exactly
two records, (calendarYear = 2021, value = 150.5, yearOrdinal = 0) and
(calendarYear = 2022, value = 200.0, yearOrdinal = 1). -/
theorem C3_amended_end_to_end :
    runPipeline vcfgC3 pcfgC3 attsC3 gridC3 7 9 =
      .ok (.accepted
        [⟨none, 9, 1, "Revenue", mkRat 301 2, 7, 2021, 0⟩,
         ⟨none, 9, 1, "Revenue", mkRat 200 1, 7, 2022, 1⟩]) := by decide

/-- The warning items a single year-row cell contributes in
`_validate_year_row`. -/
def yearScanWOf (c : CellValue) : List VItem :=
  if pdIsna c then []
  else
    match pyToIntCell c with
    | some y => if 1900 ≤ y ∧ y ≤ 2100 then [] else [VItem.warn (unusualYearMsg y)]
    | none => [VItem.warn (nonNumericYearMsg c)]

/-- The valid years a single year-row cell contributes in
`_validate_year_row`. -/
def yearScanVOf (c : CellValue) : List Int :=
  if pdIsna c then []
  else
    match pyToIntCell c with
    | some y => if 1900 ≤ y ∧ y ≤ 2100 then [y] else []
    | none => []

lemma yearScanStep_eq (acc : List VItem × List Int) (c : CellValue) :
    yearScanStep acc c = (acc.1 ++ yearScanWOf c, acc.2 ++ yearScanVOf c) := by
  by_cases h1 : pdIsna c
  · simp [yearScanStep, yearScanWOf, yearScanVOf, h1]
  · cases h2 : pyToIntCell c with
    | some y =>
      by_cases h3 : 1900 ≤ y ∧ y ≤ 2100
      · simp [yearScanStep, yearScanWOf, yearScanVOf, h1, h2, h3]
      · simp [yearScanStep, yearScanWOf, yearScanVOf, h1, h2, h3]
    | none => simp [yearScanStep, yearScanWOf, yearScanVOf, h1, h2]

lemma yearScan_foldl (cells : List CellValue) :
    ∀ acc : List VItem × List Int,
      cells.foldl yearScanStep acc =
        (acc.1 ++ cells.flatMap yearScanWOf, acc.2 ++ cells.flatMap yearScanVOf) := by
  induction cells with
  | nil => intro acc; simp
  | cons c cs ih =>
    intro acc
    rw [List.foldl_cons, yearScanStep_eq, ih]
    simp [List.flatMap_cons]

/-- The year loop of `_validate_year_row` decomposed per cell. -/
lemma yearScan_eq (cells : List CellValue) :
    yearScan cells = (cells.flatMap yearScanWOf, cells.flatMap yearScanVOf) := by
  simpa [yearScan] using yearScan_foldl cells ([], [])

/-- C4 counterexample: the metadata extractor places the out-of-range year
1500 in the year mapping (there is no [1900, 2100] filter in
`extract_metadata`). -/
theorem C4_counterexample :
    extract_metadata ⟨some 0, none⟩ [[CellValue.blank, CellValue.num (mkRat 1500 1)]] =
      .ok ⟨none, [(1, ⟨1500, none, 0⟩)]⟩ ∧
    ¬ (1900 ≤ (1500 : Int)) := by decide

/-- C4 (amended): the [1900, 2100] filter exists only in the validator: its
year scan never counts an out-of-range parsed year as valid, and such a year
produces a warning; the metadata extractor, by contrast, inserts any
integer-parseable cell into the year mapping with no range restriction (1500
lands in the mapping). -/
theorem C4_amended_range_filter_only_in_validator :
    (∀ cells : List CellValue, ∀ y ∈ (yearScan cells).2, 1900 ≤ y ∧ y ≤ 2100) ∧
    (∀ (cells : List CellValue) (c : CellValue) (y : Int), c ∈ cells → pdIsna c = false →
      pyToIntCell c = some y → ¬(1900 ≤ y ∧ y ≤ 2100) →
      VItem.warn (unusualYearMsg y) ∈ (yearScan cells).1) ∧
    extract_metadata ⟨some 0, none⟩ [[CellValue.blank, CellValue.num (mkRat 1500 1)]] =
      .ok ⟨none, [(1, ⟨1500, none, 0⟩)]⟩ := by
  refine ⟨?_, ?_, by decide⟩
  · intro cells y hy
    rw [yearScan_eq] at hy
    rw [List.mem_flatMap] at hy
    obtain ⟨c, _, hyc⟩ := hy
    unfold yearScanVOf at hyc
    split at hyc
    · simp at hyc
    · split at hyc
      · rename_i y2 h3
        split at hyc
        · rename_i hin
          simp at hyc
          rw [hyc]
          exact hin
        · simp at hyc
      · simp at hyc
  · intro cells c y hc hna hp hrange
    rw [yearScan_eq]
    rw [List.mem_flatMap]
    exact ⟨c, hc, by simp [yearScanWOf, hna, hp, hrange]⟩

/-- C4 witness: the validator facts at a concrete cell list. -/
theorem C4_amended_witness :
    (1900 ≤ (2021 : Int) ∧ (2021 : Int) ≤ 2100) ∧
    VItem.warn (unusualYearMsg 1500) ∈
      (yearScan [CellValue.num (mkRat 1500 1)]).1 :=
  ⟨C4_amended_range_filter_only_in_validator.1 [CellValue.num (mkRat 2021 1)] 2021 (by decide),
   C4_amended_range_filter_only_in_validator.2.1 [CellValue.num (mkRat 1500 1)]
     (CellValue.num (mkRat 1500 1)) 1500 (by decide) (by decide) (by decide) (by decide)⟩

/-- C5 counterexample: a lowercase account-type cell "audited" is classified
as managed, not audited — the substring test `"Audit" in str(acc_raw)` is
case-sensitive. -/
theorem C5_counterexample :
    extract_metadata ⟨some 0, some 1⟩
        [[CellValue.blank, CellValue.num (mkRat 2021 1)],
         [CellValue.blank, CellValue.str "audited"]] =
      .ok ⟨none, [(1, ⟨2021, some "managed", 0⟩)]⟩ ∧
    (some "managed" : Option String) ≠ some "audited" := by decide

/-- C5 (amended): the account-type classification of metadata extraction is
case-sensitive on the substring "Audit": a text cell containing "Audit"
yields audited and any other text cell yields managed (so "Audited" is
audited but lowercase "audited", and the lowercased form of any spelling, is
managed, as is "Management Accounts"); with no account-type row the
classification is unknown (None). -/
theorem C5_amended_case_sensitive_audit (r : Row) (col : Nat) (s : String)
    (hlen : col < r.length) (hcell : r.getD col .blank = .str s) :
    accOf (some r) col = some (if strContains s "Audit" then "audited" else "managed") ∧
    accOf none col = none ∧
    (∀ (r2 : Row) (c2 : Nat), r2.getD c2 .blank = .blank → accOf (some r2) c2 = none) ∧
    strContains "Audited" "Audit" = true ∧
    strContains "audited" "Audit" = false ∧
    strContains (lowerStr "Audited") "Audit" = false ∧
    strContains "Management Accounts" "Audit" = false := by
  refine ⟨?_, rfl, ?_, by decide, by decide, by decide, by decide⟩
  · simp only [accOf]
    rw [if_pos hlen, hcell]
    cases hb : strContains s "Audit" <;> simp [pdIsna, pyStr, hb]
  · intro r2 c2 h2
    by_cases hl : c2 < r2.length
    · simp only [accOf]
      rw [if_pos hl, h2]
      simp [pdIsna]
    · simp only [accOf]
      rw [if_neg hl]
      simp [pdIsna]

/-- C5 witness: the classification at the concrete cell "audited". -/
theorem C5_amended_case_sensitive_audit_witness :
    accOf (some [CellValue.str "audited"]) 0 =
      some (if strContains "audited" "Audit" then "audited" else "managed") :=
  (C5_amended_case_sensitive_audit [CellValue.str "audited"] 0 "audited"
    (by decide) rfl).1

lemma metaYearEntry_key (acctRow? : Option Row) (yr : Row) (col : Nat) (p : Nat × YearInfo)
    (h : metaYearEntry acctRow? yr col = some p) : p.1 = col := by
  unfold metaYearEntry at h
  split at h
  · exact absurd h (by simp)
  · split at h
    · injection h with h2
      rw [← h2]
    · exact absurd h (by simp)

lemma metaYearsOfOpt_window (a acct : Option Row) :
    (metaYearsOfOpt a acct).length ≤ 10 ∧
      ∀ p ∈ metaYearsOfOpt a acct, 1 ≤ p.1 ∧ p.1 ≤ 10 := by
  cases a with
  | none => simp [metaYearsOfOpt]
  | some yr =>
    simp only [metaYearsOfOpt, metaYears]
    constructor
    · have h1 := List.length_filterMap_le (metaYearEntry acct yr)
        (List.range' 1 (min 11 yr.length - 1))
      have h2 : (List.range' 1 (min 11 yr.length - 1)).length = min 11 yr.length - 1 :=
        List.length_range' ..
      have h3 : min 11 yr.length ≤ 11 := Nat.min_le_left ..
      omega
    · intro p hp
      rw [List.mem_filterMap] at hp
      obtain ⟨col, hcol, hent⟩ := hp
      have hk := metaYearEntry_key acct yr col p hent
      rw [List.mem_range'_1] at hcol
      have h3 : min 11 yr.length ≤ 11 := Nat.min_le_left ..
      omega

lemma extract_metadata_years_shape (cfg : PConfig) (g : Grid) (m : Metadata)
    (h : extract_metadata cfg g = .ok m) :
    ∃ a b, m.years = metaYearsOfOpt a b := by
  simp only [extract_metadata] at h
  repeat' split at h
  all_goals try exact Except.noConfusion h
  injection h with h2
  exact ⟨_, _, by rw [← h2]⟩

/-- C8: every metadata result draws its year mapping from 0-based columns 1
through 10 of the years row (human columns 2 through 11): the mapping has at
most 10 entries and every key lies in [1, 10], so later columns are ignored. -/
theorem C8_year_window (cfg : PConfig) (g : Grid) (m : Metadata)
    (h : extract_metadata cfg g = .ok m) :
    m.years.length ≤ 10 ∧ ∀ p ∈ m.years, 1 ≤ p.1 ∧ p.1 ≤ 10 := by
  obtain ⟨a, b, hy⟩ := extract_metadata_years_shape cfg g m h
  rw [hy]
  exact metaYearsOfOpt_window a b

/-- A one-row grid whose years row has 15 populated year columns
(2000 through 2014) after the label column. -/
def gridC8 : Grid :=
  [CellValue.blank :: (List.range' 2000 15).map (fun y => CellValue.num (mkRat (y : Int) 1))]

/-- The metadata the extractor produces on `gridC8`: exactly the 10 year
columns 1 through 10 (years 2000 through 2009). -/
def mdC8 : Metadata :=
  ⟨none, (List.range' 1 10).map (fun c => (c, ⟨1999 + (c : Int), none, (c : Int) - 1⟩))⟩

/-- C8 witness: on a years row with 15 populated year columns the mapping has
exactly 10 entries, and the window bound applies to it. -/
theorem C8_year_window_witness :
    extract_metadata ⟨some 0, none⟩ gridC8 = .ok mdC8 ∧
    mdC8.years.length = 10 ∧ mdC8.years.length ≤ 10 := by
  exact ⟨by decide, by decide, (C8_year_window ⟨some 0, none⟩ gridC8 mdC8 (by decide)).1⟩

/-- C9: invoking attribute extraction with no loaded grid logs the
"Excel file not loaded" error and returns an empty record sequence instead of
raising. -/
theorem C9_unloaded_returns_empty (cfg : PConfig) (atts : List AttrDesc)
    (customer_id application_id : Int) :
    extract_financial_data cfg atts none customer_id application_id =
      .ok ([LogEvt.logError "Excel file not loaded"], []) := rfl

/-- C10: a row-assertion entry whose row index is missing or falsy — or, for
the row-label check, whose expected label is missing or falsy — is silently
skipped: removing the entry leaves the items recorded by the row-label check
and the row-value-presence check unchanged (no error and no warning for it). -/
theorem C10_falsy_entries_skipped (g : Grid) (pre post : List RowValidation)
    (v : RowValidation) :
    (truthyInt v.row = none ∨ truthyStr v.expected_name = none →
      rowNamesItemsL g (pre ++ v :: post) = rowNamesItemsL g (pre ++ post)) ∧
    (truthyInt v.row = none →
      rowValuesItemsL g (pre ++ v :: post) = rowValuesItemsL g (pre ++ post)) := by
  constructor
  · intro h
    have hz : rowNameEntryItems g v = [] := by
      rcases h with h | h
      · cases h2 : truthyStr v.expected_name <;> simp [rowNameEntryItems, h, h2]
      · cases h2 : truthyInt v.row <;> simp [rowNameEntryItems, h, h2]
    simp [rowNamesItemsL, List.flatMap_append, List.flatMap_cons, hz]
  · intro h
    have hz : rowValueEntryItems g v = [] := by simp [rowValueEntryItems, h]
    simp [rowValuesItemsL, List.flatMap_append, List.flatMap_cons, hz]

/-- C10 witness: an entry with the falsy row index 0 and a non-empty label is
skipped by both checks on a concrete grid. -/
theorem C10_falsy_entries_skipped_witness :
    rowNamesItemsL [[CellValue.str "A"]] ([] ++ (⟨some 0, some "A"⟩ : RowValidation) :: []) =
      rowNamesItemsL [[CellValue.str "A"]] ([] ++ []) ∧
    rowValuesItemsL [[CellValue.str "A"]] ([] ++ (⟨some 0, some "A"⟩ : RowValidation) :: []) =
      rowValuesItemsL [[CellValue.str "A"]] ([] ++ []) := by
  have h := C10_falsy_entries_skipped [[CellValue.str "A"]] [] [] ⟨some 0, some "A"⟩
  exact ⟨h.1 (Or.inl (by decide)), h.2 (by decide)⟩
